import Mathlib

/-!
Verification development for the training bot (`bot.py`).

Shallow embedding of the persistence layer (`Database`), the completion
toggle, weight entry and reset branches of `TrainingBot.button_handler` /
`TrainingBot.message_handler`, and the rest-timer subsystem
(`TrainingBot.start_timer`, `TrainingBot.run_timer`,
`TrainingBot.format_time`).  The three SQLite tables become lists of rows;
`AUTOINCREMENT` ids and `CURRENT_TIMESTAMP` columns are omitted (no property
below depends on them); Python floats are modelled as rationals.
-/

namespace TrainingBot

/-- Row of the `users` table (`created_at` omitted).  The counters are `Int`:
SQLite integers are signed and the `UPDATE` statements can drive them
negative. -/
structure UserRow where
  id : Nat
  username : String
  fullName : String
  currentWeek : Nat
  currentDay : Nat
  totalWorkouts : Int
  totalExercises : Int
deriving DecidableEq

/-- Row of the `user_progress` table (`id` and `completed_at` omitted). -/
structure ProgressRow where
  userId : Nat
  week : Nat
  day : Nat
  exerciseId : String
  completed : Bool
  weight : Option Rat
deriving DecidableEq

/-- Row of the `timer_history` table (`id` and `completed_at` omitted). -/
structure TimerHistoryRow where
  userId : Nat
  exerciseName : String
  durationSeconds : Nat
deriving DecidableEq

/-- Database state: the three tables. -/
structure DB where
  users : List UserRow
  progress : List ProgressRow
  timerHistory : List TimerHistoryRow
deriving DecidableEq

/-- The `WHERE user_id = ? AND exercise_id = ?` condition — the
`UNIQUE(user_id, exercise_id)` key used by `update_exercise_status` and by
the `INSERT OR REPLACE` of `save_exercise_weight`. -/
def recKey (uid : Nat) (ex : String) (r : ProgressRow) : Bool :=
  r.userId == uid && r.exerciseId == ex

/-- `Database.create_user`: `INSERT OR IGNORE` keyed on the primary key `id`,
a no-op when the row already exists, otherwise a fresh row with the schema
defaults (`current_week 1`, `current_day 1`, both counters `0`). -/
def create_user (db : DB) (uid : Nat) (username fullName : String) : DB :=
  if db.users.any fun u => u.id == uid then db
  else { db with users := db.users ++ [⟨uid, username, fullName, 1, 1, 0, 0⟩] }

/-- `Database.get_user`: `SELECT * FROM users WHERE id = ?`. -/
def get_user (db : DB) (uid : Nat) : Option UserRow :=
  db.users.find? fun u => u.id == uid

/-- The dictionary built by the row loop of `Database.get_user_progress`
(`progress[exercise_id] = {...}`): a later row with the same `exercise_id`
overwrites an earlier one, hence the tail takes priority. -/
def progressDict : List ProgressRow → String → Option (Bool × Option Rat)
  | [], _ => none
  | r :: rest, ex =>
    match progressDict rest ex with
    | some v => some v
    | none => if r.exerciseId == ex then some (r.completed, r.weight) else none

/-- `Database.get_user_progress`: the rows `WHERE user_id = ? AND week = ?
AND day = ?`, returned as a map from `exercise_id` to
`(completed, weight)`. -/
def get_user_progress (db : DB) (uid week day : Nat) : String → Option (Bool × Option Rat) :=
  progressDict (db.progress.filter fun r => r.userId == uid && r.week == week && r.day == day)

/-- `Database.update_exercise_status`.  The existing record is looked up by
`(user_id, exercise_id)` only; on hit it is updated (`completed`, `week`,
`day`), on miss a new row is inserted.  The counter update mirrors the two
Python conditions verbatim: `if completed and not existing` increments,
`elif not completed and existing and existing[0] == 1` decrements — the
increment fires only when no record existed at all. -/
def update_exercise_status (db : DB) (uid week day : Nat) (ex : String) (completed : Bool) :
    DB :=
  let existing := db.progress.find? (recKey uid ex)
  let progressTab :=
    match existing with
    | some _ =>
      db.progress.map fun r =>
        if recKey uid ex r then { r with completed := completed, week := week, day := day }
        else r
    | none => db.progress ++ [⟨uid, week, day, ex, completed, none⟩]
  let usersTab :=
    match existing with
    | none =>
      if completed then
        db.users.map fun u =>
          if u.id == uid then { u with totalExercises := u.totalExercises + 1 } else u
      else db.users
    | some r =>
      if !completed && r.completed then
        db.users.map fun u =>
          if u.id == uid then { u with totalExercises := u.totalExercises - 1 } else u
      else db.users
  { db with progress := progressTab, users := usersTab }

/-- The `toggle_complete_` branch of `TrainingBot.button_handler`: the current
flag is read through the `(week, day)`-filtered view
(`current_progress.get(exercise_id, {}).get('completed', False)`), flipped,
and written back via `update_exercise_status`. -/
def toggle_complete (db : DB) (uid week day : Nat) (ex : String) : DB :=
  let cur := ((get_user_progress db uid week day ex).map Prod.fst).getD false
  update_exercise_status db uid week day ex (!cur)

/-- `Database.save_exercise_weight`: `INSERT OR REPLACE` on the
`UNIQUE(user_id, exercise_id)` key — the conflicting row is deleted and the
inserted row carries only the listed columns, so `completed` falls back to
its schema default `0` (false). -/
def save_exercise_weight (db : DB) (uid week day : Nat) (ex : String) (weight : Rat) : DB :=
  { db with progress :=
      (db.progress.filter fun r => !recKey uid ex r) ++
        [⟨uid, week, day, ex, false, some weight⟩] }

/-- The `reset_confirm` branch of `TrainingBot.button_handler`:
`DELETE FROM user_progress WHERE user_id = ?` followed by
`UPDATE users SET total_exercises = 0, total_workouts = 0 WHERE id = ?`.
The position columns `current_week`/`current_day` are not touched. -/
def reset_progress (db : DB) (uid : Nat) : DB :=
  { db with
      progress := db.progress.filter fun r => !(r.userId == uid),
      users := db.users.map fun u =>
        if u.id == uid then { u with totalExercises := 0, totalWorkouts := 0 } else u }

/-- `Database.log_timer_usage`: plain `INSERT` into `timer_history`. -/
def log_timer_usage (db : DB) (uid : Nat) (name : String) (dur : Nat) : DB :=
  { db with timerHistory := db.timerHistory ++ [⟨uid, name, dur⟩] }

/-- Value of the digit string of a decimal literal. -/
def digitsToNat (cs : List Char) : Nat :=
  cs.foldl (fun n c => 10 * n + (c.toNat - 48)) 0

/-- Core of the Python `float(...)` call of the weight handler, on an
unsigned body: digits, optionally followed by a dot and further digits, with
at least one digit overall.  Every other shape raises `ValueError` in Python,
modelled as `none`.  (Python `float` also accepts exponents and the words
`inf`/`nan`; the weight handler is only ever specified on plain decimal
input, and those extra shapes are irrelevant to every property below.) -/
def pyFloatCore (cs : List Char) : Option Rat :=
  let ip := cs.takeWhile Char.isDigit
  let rest := cs.dropWhile Char.isDigit
  match rest with
  | [] => if ip.isEmpty then none else some (digitsToNat ip : Rat)
  | '.' :: fp =>
    if fp.all Char.isDigit && !(ip.isEmpty && fp.isEmpty) then
      some ((digitsToNat ip : Rat) + (digitsToNat fp : Rat) / (10 : Rat) ^ fp.length)
    else none
  | _ => none

/-- Python `float(...)` on plain decimal literals, with an optional sign. -/
def pyFloat (s : String) : Option Rat :=
  match s.toList with
  | '-' :: cs => (pyFloatCore cs).map Neg.neg
  | '+' :: cs => pyFloatCore cs
  | cs => pyFloatCore cs

/-- `text.replace(',', '.')` of the weight handler: the pattern is a single
character, so the replacement is a character map. -/
def commaToDot (s : String) : String :=
  String.mk (s.toList.map fun c => if c == ',' then '.' else c)

/-- The pending weight-entry state stored in `context.user_data
['waiting_for_weight']` by the `set_weight_` branch of `button_handler`. -/
structure PendingWeight where
  week : Nat
  day : Nat
  exerciseId : String
deriving DecidableEq

/-- Visible reply of `TrainingBot.message_handler` on a text message. -/
inductive WeightReply where
  | saved
  | invalid
  | notPending
deriving DecidableEq

/-- The weight branch of `TrainingBot.message_handler`: with a pending entry,
`float(text.replace(',', '.'))` is parsed; on success the weight is saved and
the pending flag deleted; on `ValueError` an error reply is sent and the
pending flag survives (the `del` sits inside the `try` after the save).
Without a pending entry the handler writes nothing. -/
def message_handler (db : DB) (uid : Nat) (pending : Option PendingWeight) (text : String) :
    DB × Option PendingWeight × WeightReply :=
  match pending with
  | some wi =>
    match pyFloat (commaToDot text) with
    | some w => (save_exercise_weight db uid wi.week wi.day wi.exerciseId w, none, .saved)
    | none => (db, some wi, .invalid)
  | none => (db, none, .notPending)

/-- A per-chat `user_timers` entry: `{"seconds": ..., "message_id": ...,
"exercise_name": ...}`. -/
structure TimerEntry where
  seconds : Nat
  messageId : Nat
  exerciseName : String
deriving DecidableEq

/-- Events observable outside `run_timer`: a tick edit of a message, the
completion notification, and a `timer_history` insert. -/
inductive TimerEvent where
  | tickRender (messageId : Nat) (display : String)
  | completion (display : String)
  | historyLog (exerciseName : String) (durationSeconds : Nat)
deriving DecidableEq

/-- Zero-padding of `f"{n:02d}"`. -/
def pad2 (n : Nat) : String :=
  if n < 10 then "0" ++ toString n else toString n

/-- `TrainingBot.format_time`: `MM:SS`, zero-padded. -/
def format_time (seconds : Nat) : String :=
  pad2 (seconds / 60) ++ ":" ++ pad2 (seconds % 60)

/-- The stale-tick check at the top of each `run_timer` iteration:
`chat_id in self.user_timers and self.user_timers[chat_id]["seconds"] ==
initial_seconds`.  `entry` is the `user_timers` entry for the chat (or `none`
when absent), `initialSeconds` the duration the loop was started with. -/
def tickGuard (entry : Option TimerEntry) (initialSeconds : Nat) : Bool :=
  match entry with
  | some e => e.seconds == initialSeconds
  | none => false

/-- The `while seconds > 0` loop of `TrainingBot.run_timer`.  `registry i` is
the `user_timers` entry the loop observes at its `i`-th iteration, `renderOk
i` whether the `edit_message_text` of that iteration succeeds, and `cancelAt
= some i` delivers `asyncio` task cancellation inside the `i`-th `sleep`,
aborting the coroutine.  The first component collects the tick renders; the
second is true when the loop is left normally (countdown finished, or a
failed render hit `break`) so that the code after the loop still runs, and
false when the task was cancelled. -/
def runTimerLoop (registry : Nat → Option TimerEntry) (renderOk : Nat → Bool)
    (cancelAt : Option Nat) (initialSeconds : Nat) :
    Nat → Nat → List TimerEvent × Bool
  | 0, _ => ([], true)
  | s + 1, i =>
    if cancelAt = some i then ([], false)
    else
      match registry i with
      | some e =>
        if e.seconds == initialSeconds then
          if renderOk i then
            let next := runTimerLoop registry renderOk cancelAt initialSeconds s (i + 1)
            (TimerEvent.tickRender e.messageId (format_time s) :: next.1, next.2)
          else ([], true)
        else runTimerLoop registry renderOk cancelAt initialSeconds s (i + 1)
      | none => runTimerLoop registry renderOk cancelAt initialSeconds s (i + 1)

/-- `TrainingBot.run_timer`.  After the loop — unless the task was cancelled —
the completion notification is sent unconditionally, and a `timer_history`
row with the original `initial_seconds` is written whenever the chat still
has a `user_timers` entry (`registryEnd`, the entry observed after the
loop). -/
def run_timer (registry : Nat → Option TimerEntry) (renderOk : Nat → Bool)
    (cancelAt : Option Nat) (initialSeconds : Nat) (registryEnd : Option TimerEntry) :
    List TimerEvent :=
  let body := runTimerLoop registry renderOk cancelAt initialSeconds initialSeconds 0
  if body.2 then
    body.1 ++ [TimerEvent.completion (format_time initialSeconds)] ++
      match registryEnd with
      | some e => [TimerEvent.historyLog e.exerciseName initialSeconds]
      | none => []
  else body.1

/-- The per-chat slice of the two timer registries: the `user_timers` entry
and the identifier of the active `asyncio` task, when any. -/
structure TimerState where
  userTimer : Option TimerEntry
  activeTask : Option Nat
deriving DecidableEq

/-- `TrainingBot.start_timer`: cancels the active task when one exists (the
cancelled task is the second component of the result), sends a fresh timer
message (`messageId`), stores the new `user_timers` entry and registers the
new task. -/
def start_timer (st : TimerState) (newTaskId seconds messageId : Nat) (name : String) :
    TimerState × Option Nat :=
  (⟨some ⟨seconds, messageId, name⟩, some newTaskId⟩, st.activeTask)

/-- The tick displays among a list of timer events. -/
def tickDisplays (evs : List TimerEvent) : List String :=
  evs.filterMap fun e =>
    match e with
    | .tickRender _ d => some d
    | _ => none

/-- The durations of the `timer_history` inserts among a list of timer
events. -/
def historyWrites (evs : List TimerEvent) : List Nat :=
  evs.filterMap fun e =>
    match e with
    | .historyLog _ n => some n
    | _ => none

/-- The completion notifications among a list of timer events. -/
def completionCount (evs : List TimerEvent) : Nat :=
  (evs.filter fun e =>
    match e with
    | .completion _ => true
    | _ => false).length

/-- A fresh database right after user 1 ran `/start`. -/
def dbStart : DB := create_user ⟨[], [], []⟩ 1 "u" "User One"

/-- One press of the completion-toggle button for exercise `1-1-1` at week 1,
day 1 by user 1. -/
def toggleOnce (db : DB) : DB := toggle_complete db 1 1 1 "1-1-1"

/-- State after three consecutive toggle presses from `dbStart`. -/
def dbAfter3 : DB := toggleOnce (toggleOnce (toggleOnce dbStart))

/-- State after four consecutive toggle presses from `dbStart`. -/
def dbAfter4 : DB := toggleOnce dbAfter3

/-- A user with one completed record and a counter that matches it. -/
def dbC3 : DB :=
  ⟨[⟨1, "u", "User One", 1, 1, 0, 1⟩], [⟨1, 1, 1, "1-1-1", true, none⟩], []⟩

/-- `dbC3` after a weight of 60.5 is saved for the completed exercise. -/
def dbC3After : DB := save_exercise_weight dbC3 1 1 1 "1-1-1" (60.5 : Rat)

/-- A `user_timers` entry for a three-second timer on message 1. -/
def entry3 : TimerEntry := ⟨3, 1, "rest"⟩

/-- A user at position week 2, day 3 with one completed record and nonzero
counters. -/
def dbC8 : DB := ⟨[⟨1, "u", "U", 2, 3, 4, 5⟩], [⟨1, 1, 1, "1-1-1", true, none⟩], []⟩

/-- A user whose only record for exercise `1-1-1` is stored under week 1,
day 1. -/
def dbC9 : DB := ⟨[⟨1, "u", "U", 1, 1, 0, 1⟩], [⟨1, 1, 1, "1-1-1", true, none⟩], []⟩

/-- A user row with non-default name, position and counters. -/
def dbC10 : DB := ⟨[⟨1, "old", "Old Name", 3, 2, 5, 7⟩], [], []⟩

/-- Helper: a list whose `p`-matching elements were all filtered out, with a
`p`-matching element appended, is found at that element. -/
theorem find_filter_not_append {α : Type} (p : α → Bool) (l : List α) (x : α)
    (hx : p x = true) : ((l.filter fun a => !p a) ++ [x]).find? p = some x := by
  induction l with
  | nil => simp [List.find?, hx]
  | cons a t ih =>
    by_cases h : p a = true
    · simp [List.filter_cons, h, ih]
    · have h2 : p a = false := by
        cases hx2 : p a
        · rfl
        · exact absurd hx2 h
      simp [List.filter_cons, h2, List.find?, ih]

/-- Helper: a list of length at most one has at most one member. -/
theorem eq_of_mem_length_le_one {α : Type} {l : List α} (h : l.length ≤ 1) {a b : α}
    (ha : a ∈ l) (hb : b ∈ l) : a = b := by
  cases l with
  | nil => cases ha
  | cons x t =>
    cases t with
    | nil =>
      rw [List.mem_singleton] at ha hb
      rw [ha, hb]
    | cons y s =>
      exfalso
      simp only [List.length_cons] at h
      omega

/-- Helper: the progress dictionary misses a key no row carries. -/
theorem progressDict_eq_none {l : List ProgressRow} {ex : String}
    (h : ∀ r ∈ l, (r.exerciseId == ex) = false) : progressDict l ex = none := by
  induction l with
  | nil => rfl
  | cons a t ih =>
    have ha := h a (List.mem_cons_self a t)
    have ht : ∀ r ∈ t, (r.exerciseId == ex) = false := fun r hr => h r (List.mem_cons_of_mem a hr)
    simp [progressDict, ih ht, ha]

/-- Helper: after the user's rows are deleted, the day view's filter finds
nothing. -/
theorem filter_of_removed (l : List ProgressRow) (uid week day : Nat) :
    ((l.filter fun r => !(r.userId == uid)).filter
      fun r => r.userId == uid && r.week == week && r.day == day) = [] := by
  induction l with
  | nil => rfl
  | cons a t ih =>
    by_cases h : (a.userId == uid) = true
    · simp [List.filter_cons, h, ih]
    · have h2 : (a.userId == uid) = false := by
        cases hx : (a.userId == uid)
        · rfl
        · exact absurd hx h
      simp [List.filter_cons, h2, ih]

/-- Helper: zeroing the counters of the matching user row commutes with the
row lookup. -/
theorem get_user_map_zero (l : List UserRow) (uid : Nat) (u : UserRow)
    (h : l.find? (fun v => v.id == uid) = some u) :
    (l.map fun v =>
      if v.id == uid then { v with totalExercises := 0, totalWorkouts := 0 } else v).find?
      (fun v => v.id == uid) = some { u with totalExercises := 0, totalWorkouts := 0 } := by
  induction l with
  | nil => simp [List.find?] at h
  | cons a t ih =>
    cases ha : (a.id == uid) with
    | true =>
      simp only [List.find?, ha] at h
      injection h with h
      subst h
      simp only [List.map_cons, ha, if_true, List.find?]
    | false =>
      simp only [List.find?, ha] at h
      simp only [List.map_cons, ha, Bool.false_eq_true, if_false, List.find?]
      exact ih h

/-- Helper: the weight handler's parse accepts a comma separator. -/
theorem pyFloat_comma_form : pyFloat (commaToDot "60,5") = some (60.5 : Rat) := by
  have h : pyFloat (commaToDot "60,5") =
      some ((digitsToNat ['6', '0'] : Rat) + (digitsToNat ['5'] : Rat) / (10 : Rat) ^ (1 : Nat)) :=
    rfl
  have h2 : digitsToNat ['6', '0'] = 60 := by decide
  have h3 : digitsToNat ['5'] = 5 := by decide
  rw [h, h2, h3]
  norm_num

/-- Helper: the weight handler's parse accepts a dot separator. -/
theorem pyFloat_dot_form : pyFloat (commaToDot "60.5") = some (60.5 : Rat) := by
  have h : pyFloat (commaToDot "60.5") =
      some ((digitsToNat ['6', '0'] : Rat) + (digitsToNat ['5'] : Rat) / (10 : Rat) ^ (1 : Nat)) :=
    rfl
  have h2 : digitsToNat ['6', '0'] = 60 := by decide
  have h3 : digitsToNat ['5'] = 5 := by decide
  rw [h, h2, h3]
  norm_num

/-- Helper: non-numeric input raises `ValueError`. -/
theorem pyFloat_abc_none : pyFloat (commaToDot "abc") = none := rfl

/-- Claim C1 — code bug.  After three completion toggles of the same exercise
by a fresh user, exactly one of the user's progress records has `completed =
true` but `total_exercises` reads 0: the increment branch of
`update_exercise_status` fires only when no record existed at all, so the
third toggle (off → on, on an existing record) never restores the counter,
and the invariant `total_exercises = count of completed records` is broken by
a purely sequential run. -/
theorem c1_counter_invariant_broken :
    (dbAfter3.progress.filter fun r => r.userId == 1 && r.completed).length = 1 ∧
    (get_user dbAfter3 1).map UserRow.totalExercises = some 0 := by decide

/-- Claim C2 — code bug.  Four toggles (an even number) of the same exercise
from a fresh user return the record's `completed` flag to its pre-sequence
reading (not completed) but leave `total_exercises` at -1 instead of the
pre-sequence 0: the fourth toggle decrements although the third never
incremented. -/
theorem c2_four_toggles_shift_counter :
    dbStart.progress.find? (recKey 1 "1-1-1") = none ∧
    (get_user dbStart 1).map UserRow.totalExercises = some 0 ∧
    (dbAfter4.progress.find? (recKey 1 "1-1-1")).map ProgressRow.completed = some false ∧
    (get_user dbAfter4 1).map UserRow.totalExercises = some (-1) := by decide

/-- Claim C3 — code bug.  Saving a weight for an exercise whose record has
`completed = true` rewrites the record with `completed = false`: the `INSERT
OR REPLACE` of `save_exercise_weight` deletes the conflicting row and the
replacement row takes the schema default `completed = 0`, while the user's
counter stays at 1 — the weight submission is not frame-preserving on the
completed flag. -/
theorem c3_weight_save_resets_completed :
    (dbC3.progress.find? (recKey 1 "1-1-1")).map ProgressRow.completed = some true ∧
    (get_user dbC3 1).map UserRow.totalExercises = some 1 ∧
    (dbC3After.progress.find? (recKey 1 "1-1-1")).map ProgressRow.completed = some false ∧
    (get_user dbC3After 1).map UserRow.totalExercises = some 1 ∧
    (dbC3After.progress.filter fun r => r.userId == 1 && r.completed).length = 0 := by decide

/-- Claim C4 — counterexample.  A three-second timer run to expiry renders
three tick displays, `00:02`, `00:01` and `00:00` (the loop body runs for
`seconds = 0` as well), not exactly the two the claim lists. -/
theorem c4_counterexample :
    tickDisplays (run_timer (fun _ => some entry3) (fun _ => true) none 3 (some entry3)) =
      ["00:02", "00:01", "00:00"] ∧
    tickDisplays (run_timer (fun _ => some entry3) (fun _ => true) none 3 (some entry3)) ≠
      ["00:02", "00:01"] := by decide

/-- Claim C4 — amended.  A three-second timer run to expiry without
cancellation or render failure produces the tick displays `00:02`, `00:01`,
`00:00`, then one completion notification, then exactly one history row with
the original duration 3; a timer cancelled in any of the three countdown
sleeps produces no history row and no completion notification. -/
theorem c4_timer_run :
    run_timer (fun _ => some entry3) (fun _ => true) none 3 (some entry3) =
      [TimerEvent.tickRender 1 "00:02", TimerEvent.tickRender 1 "00:01",
       TimerEvent.tickRender 1 "00:00", TimerEvent.completion "00:03",
       TimerEvent.historyLog "rest" 3] ∧
    (∀ i, i < 3 →
      historyWrites (run_timer (fun _ => some entry3) (fun _ => true) (some i) 3 (some entry3)) =
        [] ∧
      completionCount
        (run_timer (fun _ => some entry3) (fun _ => true) (some i) 3 (some entry3)) = 0) := by
  decide

/-- Witness for C4: cancellation delivered in the second sleep (display at
`00:02`) yields no history write and no completion. -/
theorem c4_witness :
    historyWrites (run_timer (fun _ => some entry3) (fun _ => true) (some 1) 3 (some entry3)) =
      [] ∧
    completionCount (run_timer (fun _ => some entry3) (fun _ => true) (some 1) 3 (some entry3)) =
      0 :=
  c4_timer_run.2 1 (by decide)

/-- Claim C5 — counterexample.  When the render of the very first tick fails,
the loop stops ticking, but the code after the loop still runs: a completion
notification is emitted and a history row with the original duration 3 is
written — the claim's no-further-RenderCommands and no-history parts are both
false. -/
theorem c5_counterexample :
    historyWrites (run_timer (fun _ => some entry3) (fun _ => false) none 3 (some entry3)) =
      [3] ∧
    completionCount (run_timer (fun _ => some entry3) (fun _ => false) none 3 (some entry3)) =
      1 ∧
    tickDisplays (run_timer (fun _ => some entry3) (fun _ => false) none 3 (some entry3)) =
      [] := by decide

/-- Claim C5 — amended.  A render failure during a tick leaves the loop via
`break` without raising: no further tick updates are rendered, but the
completion notification is still sent and a history row with the original
duration is still written. -/
theorem c5_render_failure (s : Nat) (e : TimerEntry) (he : e.seconds = s + 1) :
    run_timer (fun _ => some e) (fun _ => false) none (s + 1) (some e) =
      [TimerEvent.completion (format_time (s + 1)),
       TimerEvent.historyLog e.exerciseName (s + 1)] := by
  simp [run_timer, runTimerLoop, he]

/-- Witness for C5 at a three-second timer whose first render fails. -/
theorem c5_witness :
    run_timer (fun _ => some entry3) (fun _ => false) none 3 (some entry3) =
      [TimerEvent.completion (format_time 3), TimerEvent.historyLog entry3.exerciseName 3] :=
  c5_render_failure 2 entry3 (by decide)

/-- Claim C6 — counterexample.  Replacing a running 90-second timer with a new
90-second timer: `start_timer` does cancel the old task, but the stale-tick
check of the superseded loop still passes (`seconds == initial_seconds`
compares durations, not generations), and the registry now points at the new
session's message — an in-flight stale tick would not no-op and would write
over the newer session's display. -/
theorem c6_counterexample :
    (start_timer ⟨some ⟨90, 1, "old"⟩, some 0⟩ 1 90 2 "new").1.userTimer =
      some ⟨90, 2, "new"⟩ ∧
    tickGuard (start_timer ⟨some ⟨90, 1, "old"⟩, some 0⟩ 1 90 2 "new").1.userTimer 90 =
      true := by decide

/-- Claim C6 — amended.  `start_timer` always cancels the previously active
task (that cancellation, not the tick check, is what silences an old session
of equal duration), and the stale-tick check of a superseded loop detects the
replacement exactly when the new duration differs from the old loop's
original duration. -/
theorem c6_generation (st : TimerState) (tid s mid oldInit : Nat) (nm : String) :
    (start_timer st tid s mid nm).2 = st.activeTask ∧
    tickGuard (start_timer st tid s mid nm).1.userTimer oldInit = (s == oldInit) :=
  ⟨rfl, rfl⟩

/-- Witness for C6 at a concrete replaced 90-second session. -/
theorem c6_witness :
    (start_timer ⟨some ⟨90, 1, "old"⟩, some 0⟩ 1 90 2 "new").2 = some 0 ∧
    tickGuard (start_timer ⟨some ⟨90, 1, "old"⟩, some 0⟩ 1 90 2 "new").1.userTimer 90 =
      (90 == 90) :=
  c6_generation ⟨some ⟨90, 1, "old"⟩, some 0⟩ 1 90 2 90 "new"

/-- Claim C7 — confirmed.  With a pending weight entry, submitting `60,5` or
`60.5` stores weight 60.5 on the `(user, exercise)` record and clears the
pending flag; submitting `abc` changes nothing in the database, sends the
invalid-input reply and leaves the pending flag set. -/
theorem c7_weight_entry (db : DB) (uid : Nat) (wi : PendingWeight) :
    (message_handler db uid (some wi) "60,5").1.progress.find? (recKey uid wi.exerciseId) =
      some ⟨uid, wi.week, wi.day, wi.exerciseId, false, some (60.5 : Rat)⟩ ∧
    (message_handler db uid (some wi) "60,5").2 = (none, WeightReply.saved) ∧
    (message_handler db uid (some wi) "60.5").1.progress.find? (recKey uid wi.exerciseId) =
      some ⟨uid, wi.week, wi.day, wi.exerciseId, false, some (60.5 : Rat)⟩ ∧
    (message_handler db uid (some wi) "60.5").2 = (none, WeightReply.saved) ∧
    message_handler db uid (some wi) "abc" = (db, some wi, WeightReply.invalid) := by
  have hsave : ∀ t : String, pyFloat (commaToDot t) = some (60.5 : Rat) →
      message_handler db uid (some wi) t =
        (save_exercise_weight db uid wi.week wi.day wi.exerciseId (60.5 : Rat), none,
          WeightReply.saved) := by
    intro t ht
    simp [message_handler, ht]
  have hfind :
      (save_exercise_weight db uid wi.week wi.day wi.exerciseId (60.5 : Rat)).progress.find?
        (recKey uid wi.exerciseId) =
        some ⟨uid, wi.week, wi.day, wi.exerciseId, false, some (60.5 : Rat)⟩ := by
    apply find_filter_not_append
    simp [recKey]
  refine ⟨?_, ?_, ?_, ?_, ?_⟩
  · rw [hsave "60,5" pyFloat_comma_form]; exact hfind
  · rw [hsave "60,5" pyFloat_comma_form]
  · rw [hsave "60.5" pyFloat_dot_form]; exact hfind
  · rw [hsave "60.5" pyFloat_dot_form]
  · simp [message_handler, pyFloat_abc_none]

/-- Witness for C7 on an empty database. -/
theorem c7_witness :
    message_handler ⟨[], [], []⟩ 7 (some ⟨1, 1, "1-1-1"⟩) "abc" =
      (⟨[], [], []⟩, some ⟨1, 1, "1-1-1"⟩, WeightReply.invalid) ∧
    (message_handler ⟨[], [], []⟩ 7 (some ⟨1, 1, "1-1-1"⟩) "60,5").2 =
      (none, WeightReply.saved) :=
  ⟨(c7_weight_entry ⟨[], [], []⟩ 7 ⟨1, 1, "1-1-1"⟩).2.2.2.2,
   (c7_weight_entry ⟨[], [], []⟩ 7 ⟨1, 1, "1-1-1"⟩).2.1⟩

/-- Claim C8 — confirmed.  The reset deletes every progress record of the
user (any day view reads an empty mapping afterwards) and zeroes both
counters, while the user's name and `(week, day)` position are unchanged: the
resulting row is exactly the old row with both counters set to 0. -/
theorem c8_reset_scrubs_progress (db : DB) (uid : Nat) (u : UserRow)
    (h : get_user db uid = some u) :
    (∀ week day ex, get_user_progress (reset_progress db uid) uid week day ex = none) ∧
    get_user (reset_progress db uid) uid =
      some { u with totalExercises := 0, totalWorkouts := 0 } := by
  constructor
  · intro week day ex
    have hnil := filter_of_removed db.progress uid week day
    simp [get_user_progress, reset_progress, hnil, progressDict]
  · simp only [get_user] at h
    exact get_user_map_zero db.users uid u h

/-- Witness for C8 at a user sitting at week 2, day 3 with nonzero
counters. -/
theorem c8_witness :
    get_user_progress (reset_progress dbC8 1) 1 5 2 "1-1-1" = none ∧
    get_user (reset_progress dbC8 1) 1 = some ⟨1, "u", "U", 2, 3, 0, 0⟩ :=
  ⟨(c8_reset_scrubs_progress dbC8 1 ⟨1, "u", "U", 2, 3, 4, 5⟩ (by decide)).1 5 2 "1-1-1",
   (c8_reset_scrubs_progress dbC8 1 ⟨1, "u", "U", 2, 3, 4, 5⟩ (by decide)).2⟩

/-- Claim C9 — confirmed.  When the user's unique record for an exercise is
stored under a different `(week, day)` than the one being viewed, the
`(week, day)`-filtered progress read misses it, and the completion toggle
therefore reads "not completed" and writes `completed = true`. -/
theorem c9_day_scoped_read (db : DB) (uid week day : Nat) (ex : String) (r : ProgressRow)
    (hu : (db.progress.filter (recKey uid ex)).length ≤ 1)
    (hr : db.progress.find? (recKey uid ex) = some r)
    (hwd : r.week ≠ week ∨ r.day ≠ day) :
    get_user_progress db uid week day ex = none ∧
    toggle_complete db uid week day ex = update_exercise_status db uid week day ex true := by
  have hkey : recKey uid ex r = true := List.find?_some hr
  have hmem : r ∈ db.progress := List.mem_of_find?_eq_some hr
  have hnone : get_user_progress db uid week day ex = none := by
    apply progressDict_eq_none
    intro r2 hr2
    rw [List.mem_filter] at hr2
    obtain ⟨hr2mem, hr2day⟩ := hr2
    by_contra hcon
    rw [Bool.not_eq_false] at hcon
    simp only [Bool.and_eq_true] at hr2day
    have hk2 : recKey uid ex r2 = true := by
      simp [recKey, Bool.and_eq_true, hr2day.1.1, hcon]
    have hm2 : r2 ∈ db.progress.filter (recKey uid ex) := List.mem_filter.mpr ⟨hr2mem, hk2⟩
    have hm1 : r ∈ db.progress.filter (recKey uid ex) := List.mem_filter.mpr ⟨hmem, hkey⟩
    have heq : r2 = r := eq_of_mem_length_le_one hu hm2 hm1
    subst heq
    rcases hwd with hw | hd
    · exact hw (by simpa using hr2day.1.2)
    · exact hd (by simpa using hr2day.2)
  refine ⟨hnone, ?_⟩
  simp [toggle_complete, hnone]

/-- Witness for C9: a record completed under week 1, day 1, viewed from
week 2. -/
theorem c9_witness :
    get_user_progress dbC9 1 2 1 "1-1-1" = none ∧
    toggle_complete dbC9 1 2 1 "1-1-1" = update_exercise_status dbC9 1 2 1 "1-1-1" true :=
  c9_day_scoped_read dbC9 1 2 1 "1-1-1" ⟨1, 1, 1, "1-1-1", true, none⟩ (by decide) (by decide)
    (Or.inl (by decide))

/-- Claim C10 — confirmed.  `create_user` for an id that already exists is a
complete no-op (`INSERT OR IGNORE` on the primary key): the whole database,
hence every field of the stored user row and all progress, is unchanged. -/
theorem c10_create_user_idempotent (db : DB) (uid : Nat) (un fn : String)
    (h : (db.users.any fun u => u.id == uid) = true) :
    create_user db uid un fn = db := by
  simp [create_user, h]

/-- Witness for C10: re-registering user 1 with a new name changes nothing. -/
theorem c10_witness : create_user dbC10 1 "new" "New Name" = dbC10 :=
  c10_create_user_idempotent dbC10 1 "new" "New Name" (by decide)

end TrainingBot
